import Mathlib

/-!
Verification of the module-replacement subsystem of `model_optimization`
(`tutorials/quick_start/pytorch_fw/ultralytics_lib/replacers.py` and
`model_compression_toolkit/core/pytorch/utils.py`).

The Python module tree is shallowly embedded: a module is a node carrying an
object identity (`oid`, standing for Python object identity: a freshly
allocated object always gets an oid distinct from every live one), a runtime
type tag used by `isinstance`, the ultralytics graph metadata `f`
(source indices), `i` (node index) and `type` (diagnostic type name),
named children in registration order, and the scalar attributes the
structural-introspection code reads (`in_channels`, `out_channels`,
`groups`, `add`, `c`, `yaml`).  Learned parameter tensors are abstracted to
one rational `w` per node (value semantics: equal `w` iff the tensors
carry the same values).  Exceptions are `Except`/`Option` values.
-/

/-- Python `int()` truncation toward zero of a rational. -/
def pyInt (q : ℚ) : Int := if 0 ≤ q then ⌊q⌋ else ⌈q⌉

/-- The exceptions the introspection code can raise: `next()` on an
exhausted children iterator raises a bare `StopIteration` (no payload);
attribute access on a module lacking the attribute raises `AttributeError`
through `torch.nn.Module.__getattr__`, whose message names the offending
object's class and the missing attribute
(`'C2f' object has no attribute 'cv1'`).  Neither exception carries the
node's position in the tree. -/
inductive PyErr where
  | stopIteration : PyErr
  | attributeError (cls attr : String) : PyErr
deriving DecidableEq, Repr

/-- Runtime type tags for the module classes `replacers.py` touches. -/
inductive MType where
  | c2f | c2fReplacerT | detect | detectReplacerT | segment | segmentReplacerT
  | detectionModel | detectionModelReplacerT
  | convT | conv2dT | bnT | actT | moduleListT | bottleneckT | otherT
deriving DecidableEq, Repr

/-- Proper superclasses of each class (`C2fReplacer` subclasses `C2f`,
`DetectReplacer` subclasses `Detect`, `Segment` subclasses `Detect`,
`SegmentReplacer` subclasses `Segment`, `DetectionModelReplacer` subclasses
`DetectionModel`). -/
def MType.ancestors : MType → List MType
  | .c2fReplacerT => [.c2f]
  | .detectReplacerT => [.detect]
  | .segment => [.detect]
  | .segmentReplacerT => [.segment, .detect]
  | .detectionModelReplacerT => [.detectionModel]
  | _ => []

/-- `type(self).__name__`: the class name an `AttributeError` message
carries. -/
def MType.clsName : MType → String
  | .c2f => "C2f"
  | .c2fReplacerT => "C2fReplacer"
  | .detect => "Detect"
  | .detectReplacerT => "DetectReplacer"
  | .segment => "Segment"
  | .segmentReplacerT => "SegmentReplacer"
  | .detectionModel => "DetectionModel"
  | .detectionModelReplacerT => "DetectionModelReplacer"
  | .convT => "Conv"
  | .conv2dT => "Conv2d"
  | .bnT => "BatchNorm2d"
  | .actT => "SiLU"
  | .moduleListT => "ModuleList"
  | .bottleneckT => "Bottleneck"
  | .otherT => "Module"

/-- Python `isinstance`: true on the class itself and on subclasses. -/
def pyIsInstance (t target : MType) : Bool :=
  t = target || t.ancestors.contains target

/-- The `f` metadata attribute: a single predecessor index or a list. -/
inductive Fv where
  | int (j : Int) : Fv
  | idxs (js : List Int) : Fv
deriving DecidableEq, Repr

/-- A module-tree node (see the module docstring for the field meanings). -/
inductive PNode where
  | mk (oid : Nat) (ty : MType) (f : Fv) (i : Int) (typeName : String)
       (children : List (String × PNode))
       (inChannels outChannels groups : Nat) (add : Bool) (c : Nat)
       (yaml : String) (w : ℚ) : PNode

def PNode.oid : PNode → Nat
  | .mk o _ _ _ _ _ _ _ _ _ _ _ _ => o

def PNode.ty : PNode → MType
  | .mk _ t _ _ _ _ _ _ _ _ _ _ _ => t

def PNode.f : PNode → Fv
  | .mk _ _ f _ _ _ _ _ _ _ _ _ _ => f

def PNode.i : PNode → Int
  | .mk _ _ _ i _ _ _ _ _ _ _ _ _ => i

def PNode.typeName : PNode → String
  | .mk _ _ _ _ tn _ _ _ _ _ _ _ _ => tn

def PNode.children : PNode → List (String × PNode)
  | .mk _ _ _ _ _ ch _ _ _ _ _ _ _ => ch

def PNode.inChannels : PNode → Nat
  | .mk _ _ _ _ _ _ a _ _ _ _ _ _ => a

def PNode.outChannels : PNode → Nat
  | .mk _ _ _ _ _ _ _ b _ _ _ _ _ => b

def PNode.groups : PNode → Nat
  | .mk _ _ _ _ _ _ _ _ g _ _ _ _ => g

def PNode.add : PNode → Bool
  | .mk _ _ _ _ _ _ _ _ _ a _ _ _ => a

def PNode.c : PNode → Nat
  | .mk _ _ _ _ _ _ _ _ _ _ cc _ _ => cc

def PNode.yaml : PNode → String
  | .mk _ _ _ _ _ _ _ _ _ _ _ y _ => y

def PNode.w : PNode → ℚ
  | .mk _ _ _ _ _ _ _ _ _ _ _ _ w => w

/-- `setattr(node, 'f', v)`. -/
def PNode.setF : PNode → Fv → PNode
  | .mk o t _ i tn ch a b g ad cc y w, v => .mk o t v i tn ch a b g ad cc y w

/-- `setattr(node, 'i', v)`. -/
def PNode.setI : PNode → Int → PNode
  | .mk o t f _ tn ch a b g ad cc y w, v => .mk o t f v tn ch a b g ad cc y w

/-- `setattr(node, 'type', v)`. -/
def PNode.setTn : PNode → String → PNode
  | .mk o t f i _ ch a b g ad cc y w, v => .mk o t f i v ch a b g ad cc y w

/-- Rebinding a node's children (the effect of `setattr(m, name, l)` on the
parent: every other attribute of the parent object is untouched). -/
def PNode.withChildren : PNode → List (String × PNode) → PNode
  | .mk o t f i tn _ a b g ad cc y w, ch => .mk o t f i tn ch a b g ad cc y w

/-- Python attribute lookup of a registered submodule by name; on a miss,
`torch.nn.Module.__getattr__` raises `AttributeError` naming the object's
class and the attribute. -/
def attrE (n : PNode) (name : String) : Except PyErr PNode :=
  match n.children.find? (fun p => p.1 = name) with
  | some p => .ok p.2
  | none => .error (.attributeError n.ty.clsName name)

/-- `next(node.children())`: the first registered child, or `StopIteration`. -/
def nextChildE (n : PNode) : Except PyErr PNode :=
  match n.children with
  | [] => .error .stopIteration
  | p :: _ => .ok p.2

/-!
## The generic two-level replacement engine (`replace_2d_deg_module`)

Python mutates `model` in place and allocates each replacement module
fresh; the embedding threads an allocation counter `ctr` (the runtime
guarantees every fresh oid differs from every live oid) and returns the
tree the caller's reference sees after the call together with the
exception, if one escaped.  An exception raised by `get_config` stops the
iteration at that point: grandchildren replaced earlier in the traversal
stay replaced (in-place mutation is not rolled back).
-/

/-- The inner loop of `replace_2d_deg_module` over one child's named
grandchildren (`for name, c in m.named_children(): ...`). -/
def goGrandchildren {Cfg : Type} (old : MType) (newModule : Cfg → Nat → PNode)
    (getConfig : PNode → Except PyErr Cfg) :
    List (String × PNode) → Nat → List (String × PNode) × Nat × Option PyErr
  | [], ctr => ([], ctr, none)
  | (name, c) :: rest, ctr =>
    if pyIsInstance c.ty old then
      match getConfig c with
      | .error e => ((name, c) :: rest, ctr, some e)
      | .ok cfg =>
        let l := (((newModule cfg ctr).setF c.f).setI c.i).setTn c.typeName
        let r := goGrandchildren old newModule getConfig rest (ctr + 1)
        ((name, l) :: r.1, r.2.1, r.2.2)
    else
      let r := goGrandchildren old newModule getConfig rest ctr
      ((name, c) :: r.1, r.2.1, r.2.2)

/-- The outer loop of `replace_2d_deg_module`
(`for n, m in model.named_children(): ...`). -/
def goChildren {Cfg : Type} (old : MType) (newModule : Cfg → Nat → PNode)
    (getConfig : PNode → Except PyErr Cfg) :
    List (String × PNode) → Nat → List (String × PNode) × Nat × Option PyErr
  | [], ctr => ([], ctr, none)
  | (n, m) :: rest, ctr =>
    let g := goGrandchildren old newModule getConfig m.children ctr
    let m' := m.withChildren g.1
    match g.2.2 with
    | some e => ((n, m') :: rest, g.2.1, some e)
    | none =>
      let r := goChildren old newModule getConfig rest g.2.1
      ((n, m') :: r.1, r.2.1, r.2.2)

/-- `replace_2d_deg_module(model, old_module, new_module, get_config)`:
replaces every depth-2 grandchild that `isinstance`-matches `old` with
`new_module(get_config(c))`, copying `f`, `i` and `type` from the displaced
node onto the replacement, and returns the mutated model. -/
def replace_2d_deg_module {Cfg : Type} (old : MType) (newModule : Cfg → Nat → PNode)
    (getConfig : PNode → Except PyErr Cfg) (model : PNode) (ctr : Nat) :
    PNode × Nat × Option PyErr :=
  let r := goChildren old newModule getConfig model.children ctr
  (model.withChildren r.1, r.2.1, r.2.2)

/-- Whether some depth-2 grandchild of `model` `isinstance`-matches `old`. -/
def hasMatch (old : MType) (model : PNode) : Bool :=
  model.children.any fun p => p.2.children.any fun q => pyIsInstance q.2.ty old

/-!
## The C2f replacer

`C2fModuleReplacer.get_config` recovers the constructor arguments of a
built `C2f` block purely by structural introspection; `get_new_module`
calls `C2fReplacer(*config)`, whose `__init__` is the inherited
ultralytics `C2f.__init__`.
-/

/-- The config tuple `[c1, c2, n, shortcut, g, e]` of a C2f block. -/
structure C2fCfg where
  c1 : Nat
  c2 : Nat
  n : Int
  shortcut : Bool
  g : Nat
  e : ℚ
deriving DecidableEq, Repr

/-- A plain leaf module (BatchNorm / activation): only identity and type. -/
def leafNode (oid : Nat) (ty : MType) : PNode :=
  .mk oid ty (.int (-1)) (-1) "" [] 0 0 1 false 0 "" 0

/-- An `nn.Conv2d` node: carries `in_channels`, `out_channels`, `groups` and
its weight stand-in. -/
def conv2dNode (oid inC outC g : Nat) (w : ℚ) : PNode :=
  .mk oid .conv2dT (.int (-1)) (-1) "" [] inC outC g false 0 "" w

/-- An ultralytics `Conv` block: children `conv` (the `nn.Conv2d`), `bn`,
`act`, registered in that order, so `next(children())` is the `nn.Conv2d`. -/
def convNode (oid inC outC g : Nat) (w : ℚ) : PNode :=
  .mk oid .convT (.int (-1)) (-1) ""
    [("conv", conv2dNode oid inC outC g w), ("bn", leafNode oid .bnT),
     ("act", leafNode oid .actT)]
    0 0 1 false 0 "" 0

/-- An ultralytics `Bottleneck(c1, c2, shortcut, g, k=((3,3),(3,3)), e=1.0)`:
`cv1 = Conv(c1, c_, k[0], 1)` (groups 1), `cv2 = Conv(c_, c2, k[1], 1, g=g)`,
`add = shortcut and c1 == c2`, with `c_ = int(c2 * 1.0) = c2`. -/
def bottleneckNode (oid c1 c2 : Nat) (shortcut : Bool) (g : Nat) (w : ℚ) : PNode :=
  .mk oid .bottleneckT (.int (-1)) (-1) ""
    [("cv1", convNode oid c1 c2 1 w), ("cv2", convNode oid c2 c2 g w)]
    0 0 1 (shortcut && decide (c1 = c2)) 0 "" 0

/-- Modelled from the spec: the third-party ultralytics `C2f.__init__`
(`C2fReplacer` inherits it), the structural shape contract that
`get_config` introspects (spec §3 "Config Tuple", §8 single-head scenario):
`self.c = int(c2 * e)`; `cv1 = Conv(c1, 2 * self.c, 1, 1)`;
`cv2 = Conv((2 + n) * self.c, c2, 1)`; `m = ModuleList(n Bottlenecks
(self.c, self.c, shortcut, g))`.  `wv` stands for the values of the block's
learned parameter tensors; a fresh construction initializes them
independently of any source module (modelled by the fixed default `0`). -/
def mkC2fAs (ty : MType) (cfg : C2fCfg) (wv : ℚ) (oid : Nat) : PNode :=
  let cHid := (pyInt ((cfg.c2 : ℚ) * cfg.e)).toNat
  .mk oid ty (.int (-1)) (-1) ""
    [("cv1", convNode oid cfg.c1 (2 * cHid) 1 wv),
     ("cv2", convNode oid (((2 + cfg.n) * (cHid : Int)).toNat) cfg.c2 1 wv),
     ("m", PNode.mk oid .moduleListT (.int (-1)) (-1) ""
        (List.replicate cfg.n.toNat
          ("0", bottleneckNode oid cHid cHid cfg.shortcut cfg.g wv))
        0 0 1 false 0 "" 0)]
    0 0 1 false cHid "" 0

/-- An original (trained) `C2f` block with parameter values `wv`. -/
def mkC2f (cfg : C2fCfg) (wv : ℚ) (oid : Nat) : PNode :=
  mkC2fAs .c2f cfg wv oid

/-- `C2fModuleReplacer.get_new_module(config) = C2fReplacer(*config)`: a
fresh module (fresh oid, freshly initialized parameters). -/
def C2fModuleReplacer.get_new_module (cfg : C2fCfg) (oid : Nat) : PNode :=
  mkC2fAs .c2fReplacerT cfg 0 oid

/-- `C2fModuleReplacer.get_config(c)`, line for line:
`c1 = next(c.cv1.children()).in_channels`;
`c2 = next(c.cv1.children()).out_channels`; `cc = c.c`;
`n = int(next(c.cv2.children()).in_channels / cc - 2)`; `e = cc / c2`;
`g = next(next(next(c.m.children()).children()).children()).groups`;
`shortcut = next(c.m.children()).add`.  (`c.c` is a plain instance
attribute, embedded as the total field `c`; submodule attributes go through
`attrE`, which raises when the structure lacks them.) -/
def C2fModuleReplacer.get_config (node : PNode) : Except PyErr C2fCfg :=
  match attrE node "cv1" with
  | .error e => .error e
  | .ok cv1 =>
  match nextChildE cv1 with
  | .error e => .error e
  | .ok conv1 =>
  let c1 := conv1.inChannels
  let c2 := conv1.outChannels
  let cc := node.c
  match attrE node "cv2" with
  | .error e => .error e
  | .ok cv2 =>
  match nextChildE cv2 with
  | .error e => .error e
  | .ok conv2 =>
  let n := pyInt ((conv2.inChannels : ℚ) / (cc : ℚ) - 2)
  let e := (cc : ℚ) / (c2 : ℚ)
  match attrE node "m" with
  | .error e => .error e
  | .ok mList =>
  match nextChildE mList with
  | .error e => .error e
  | .ok b0 =>
  match nextChildE b0 with
  | .error e => .error e
  | .ok bcv1 =>
  match nextChildE bcv1 with
  | .error e => .error e
  | .ok bconv =>
  .ok ⟨c1, c2, n, b0.add, bconv.groups, e⟩

/-- `C2fModuleReplacer.replace(model)`. -/
def C2fModuleReplacer.replace (model : PNode) (ctr : Nat) :
    PNode × Nat × Option PyErr :=
  replace_2d_deg_module .c2f C2fModuleReplacer.get_new_module
    C2fModuleReplacer.get_config model ctr

/-!
## The DetectionModel replacer

`DetectionModelModuleReplacer` does not go through the two-level engine:
`replace(model)` returns `self.get_new_module(self.get_config(model))`,
a freshly constructed `DetectionModelReplacer(model.yaml)`.
-/

/-- `DetectionModelModuleReplacer.get_config(c) = [c.yaml]`. -/
def DetectionModelModuleReplacer.get_config (node : PNode) : String :=
  node.yaml

/-- Modelled from the spec: the third-party `DetectionModel` constructor that
`DetectionModelReplacer(*config)` invokes builds a fresh top-level model
object from the yaml configuration (spec §4.1/§6: model construction is a
boundary collaborator); the embedding records the fresh allocation and the
retained yaml, abstracting the internal layer construction. -/
def DetectionModelModuleReplacer.get_new_module (yaml : String) (oid : Nat) : PNode :=
  .mk oid .detectionModelReplacerT (.int (-1)) (-1) "" [] 0 0 1 false 0 yaml 0

/-- `DetectionModelModuleReplacer.replace(model)`: builds and returns a new
model; the input model is not read beyond its yaml and not mutated. -/
def DetectionModelModuleReplacer.replace (model : PNode) (ctr : Nat) : PNode × Nat :=
  (DetectionModelModuleReplacer.get_new_module
    (DetectionModelModuleReplacer.get_config model) ctr, ctr + 1)

/-!
## `YOLOReplacer.val` image-size resolution (lines 293-305)
-/

/-- Modelled from the spec: `DEFAULT_CFG.imgsz`, the global default
configuration's image size (640). -/
def defaultImgsz : Nat := 640

/-- `overrides = self.overrides.copy(); overrides.update(kwargs)` restricted
to the imgsz key: a call-time kwargs entry shadows the stored one. -/
def mergedImgsz (selfOverrides kwargs : Option Nat) : Option Nat :=
  match kwargs with
  | some v => some v
  | none => selfOverrides

/-- Modelled from the spec (§6): `get_cfg(cfg=DEFAULT_CFG, overrides=...)`
on the imgsz key - the configuration-merging utility with precedence
explicit overrides > defaults. -/
def getCfgImgsz (merged : Option Nat) : Nat := merged.getD defaultImgsz

/-- The imgsz value `YOLOReplacer.val` selects (the value line 305 then
hands to the external `check_imgsz` divisibility normalization):
`args = get_cfg(DEFAULT_CFG, overrides)`, then
`if args.imgsz == DEFAULT_CFG.imgsz and not isinstance(self.model, (str, Path)):
args.imgsz = self.model.args['imgsz']`. -/
def valResolvedImgsz (selfOverrides kwargs : Option Nat) (modelIsPath : Bool)
    (modelArgsImgsz : Nat) : Nat :=
  let a := getCfgImgsz (mergedImgsz selfOverrides kwargs)
  if a = defaultImgsz && !modelIsPath then modelArgsImgsz else a

/-!
## `DetectionModelReplacer.forward` / `_forward_once` (lines 190-202)
-/

/-- A runtime value in the detection model's forward loop: a tensor, a list
of values (multi-input layers), or Python `None` (an unsaved `y` slot). -/
inductive PyV (τ : Type) where
  | tensor (t : τ) : PyV τ
  | listv (xs : List (PyV τ)) : PyV τ
  | pynone : PyV τ

/-- One layer of the model: its `f` and `i` metadata and its computation. -/
structure DLayer (τ : Type) where
  f : Fv
  i : Int
  run : PyV τ → PyV τ

/-- The `DetectionModelReplacer` state `_forward_once` reads: the layer
list and the save-index list. -/
structure DMR (τ : Type) where
  layers : List (DLayer τ)
  save : List Int

/-- Python list indexing (negative indices count from the end). -/
def pyIdx {α : Type} (y : List α) (j : Int) : Option α :=
  if 0 ≤ j then y.get? j.toNat
  else
    let k := (y.length : Int) + j
    if 0 ≤ k then y.get? k.toNat else none

/-- `y[j]` where `y` holds `None` for unsaved outputs. -/
def ySel {τ : Type} (y : List (Option (PyV τ))) (j : Int) : PyV τ :=
  match pyIdx y j with
  | some (some v) => v
  | _ => .pynone

/-- The body of `_forward_once`'s `for m in self.model:` loop:
`if m.f != -1: x = y[m.f] if isinstance(m.f, int) else
[x if j == -1 else y[j] for j in m.f]`; `x = m(x)`;
`y.append(x if m.i in self.save else None)`. -/
def dmrLoop {τ : Type} (save : List Int) :
    List (DLayer τ) → PyV τ → List (Option (PyV τ)) → PyV τ
  | [], x, _ => x
  | m :: rest, x, y =>
    let inp :=
      if m.f ≠ .int (-1) then
        match m.f with
        | .int j => ySel y j
        | .idxs js => .listv (js.map fun j => if j = -1 then x else ySel y j)
      else x
    let x' := m.run inp
    dmrLoop save rest x' (y ++ [if save.contains m.i then some x' else none])

/-- `DetectionModelReplacer._forward_once(x, profile, visualize)`: the two
flags are accepted but never read by the body. -/
def DetectionModelReplacer.forwardOnce {τ : Type} (model : DMR τ) (x : PyV τ)
    (_profile _visualize : Bool) : PyV τ :=
  dmrLoop model.save model.layers x []

/-- `DetectionModelReplacer.forward(x, augment, profile, visualize)`:
always the single-scale path `self._forward_once(x, profile, visualize)`. -/
def DetectionModelReplacer.forward {τ : Type} (model : DMR τ) (x : PyV τ)
    (_augment profile visualize : Bool) : PyV τ :=
  DetectionModelReplacer.forwardOnce model x profile visualize

/-!
## The tensor bridge (`core/pytorch/utils.py`)

Host/device numeric structures: dtypes are tracked (the documented
float32 downcast relabels an array's dtype; element values are carried
exactly - the claim's explicit allowance for the downcast makes rounding
irrelevant to the properties below).  `genv` is a Python generator object:
`to_torch_tensor`'s tuple branch returns the *generator expression*
`(to_torch_tensor(t) for t in tensor)` - no conversion happens unless it is
iterated, and nothing in the round trip iterates it - so `genv` carries the
unconverted elements.
-/

inductive DType where
  | f32 | f64
deriving DecidableEq, Repr

/-- The unsupported-type exception of the tensor bridge, naming the
offending Python type. -/
inductive ConvErr where
  | unsupported (tyName : String) : ConvErr
deriving DecidableEq, Repr

mutual
/-- A host/device value: numpy array, torch tensor, list, tuple, or
generator object. -/
inductive NpV where
  | arr (dt : DType) (data : List ℚ) : NpV
  | tens (dt : DType) (data : List ℚ) : NpV
  | listv (xs : NpList) : NpV
  | tup (xs : NpList) : NpV
  | genv (xs : NpList) : NpV

inductive NpList where
  | nil : NpList
  | cons (hd : NpV) (tl : NpList) : NpList
end

mutual
/-- `to_torch_tensor(tensor)`: tensors move to the working device (values
unchanged), lists convert eagerly element by element, tuples return a
generator expression (NOT a tuple), arrays are downcast to float32 and
moved, anything else raises the unsupported-type exception. -/
def to_torch_tensor : NpV → Except ConvErr NpV
  | .tens dt d => .ok (.tens dt d)
  | .listv xs =>
    match toTorchList xs with
    | .ok ys => .ok (.listv ys)
    | .error e => .error e
  | .tup xs => .ok (.genv xs)
  | .arr _ d => .ok (.tens .f32 d)
  | .genv _ => .error (.unsupported "generator")

def toTorchList : NpList → Except ConvErr NpList
  | .nil => .ok .nil
  | .cons h t =>
    match to_torch_tensor h with
    | .error e => .error e
    | .ok h' =>
      match toTorchList t with
      | .error e => .error e
      | .ok t' => .ok (.cons h' t')
end

mutual
/-- `torch_tensor_to_numpy(tensor)`: arrays pass through, lists and tuples
convert element by element (the tuple branch builds a real tuple), tensors
become host arrays with values and dtype unchanged, anything else - in
particular a generator - raises the unsupported-type exception. -/
def torch_tensor_to_numpy : NpV → Except ConvErr NpV
  | .arr dt d => .ok (.arr dt d)
  | .listv xs =>
    match toNumpyList xs with
    | .ok ys => .ok (.listv ys)
    | .error e => .error e
  | .tup xs =>
    match toNumpyList xs with
    | .ok ys => .ok (.tup ys)
    | .error e => .error e
  | .tens dt d => .ok (.arr dt d)
  | .genv _ => .error (.unsupported "generator")

def toNumpyList : NpList → Except ConvErr NpList
  | .nil => .ok .nil
  | .cons h t =>
    match torch_tensor_to_numpy h with
    | .error e => .error e
    | .ok h' =>
      match toNumpyList t with
      | .error e => .error e
      | .ok t' => .ok (.cons h' t')
end

/-- `torch_tensor_to_numpy(to_torch_tensor(a))`, errors propagating. -/
def tensorRoundTrip (x : NpV) : Except ConvErr NpV :=
  match to_torch_tensor x with
  | .ok y => torch_tensor_to_numpy y
  | .error e => .error e


/-!
## Detect head and post-processing reconstruction

`DetectReplacer.forward` (lines 105-122) and the added part of
`DetectionValidatorReplacer.postprocess` (lines 229-239), at tensor level.
A per-scale feature map carries its spatial shape `(h, w)` and its data as
channel rows over the `h * w` flattened positions (so `.view(B, no, -1)` is
the identity on this representation and `torch.cat(..., 2)` appends
position rows).  The learned convolution stacks `cv2[i]`, `cv3[i]` and the
DFL block (a softmax-weighted expectation) and the sigmoid are carried as
opaque real functions: the equivalence below is exact for every choice of
them, because both pipelines apply the same functions to the same inputs -
only the anchor grids differ in origin.  Elements are rationals (the real
arithmetic of both pipelines is the same expression tree, so exact
equality over ℚ transfers to floats executing that tree). -/

/-- A 2-D tensor slice: channel rows over flattened positions. -/
abbrev T2 := List (List ℚ)

/-- A per-scale feature map. -/
structure Feat where
  h : Nat
  w : Nat
  data : T2

/-- The `Detect`/`DetectReplacer` module state read by `forward`. -/
structure DetectM where
  nl : Nat
  nc : Nat
  reg_max : Nat
  stride : List ℚ
  cv2 : Nat → Feat → T2
  cv3 : Nat → Feat → T2
  dfl : T2 → T2
  sigmoidFn : ℚ → ℚ
  training : Bool
  exportMode : Bool
  formatEdgetpu : Bool

/-- `for i in range(self.nl): x[i] = torch.cat((self.cv2[i](x[i]),
self.cv3[i](x[i])), 1)`: the head convolutions preserve each scale's
spatial shape; concatenation along dim 1 appends channel rows. -/
def headLoop (d : DetectM) : Nat → List Feat → List Feat
  | _, [] => []
  | idx, xi :: rest =>
    (if idx < d.nl then { h := xi.h, w := xi.w, data := d.cv2 idx xi ++ d.cv3 idx xi }
     else xi) :: headLoop d (idx + 1) rest

/-- `torch.cat(-, 2)` of two slices: append position rows channelwise. -/
def catPos (a b : T2) : T2 := List.zipWith (· ++ ·) a b

/-- `torch.cat([xi.view(shape[0], self.no, -1) for xi in x], 2)`. -/
def catScales : List T2 → T2
  | [] => []
  | t :: ts => ts.foldl catPos t

/-- `.sigmoid()`: elementwise activation. -/
def sigmoidT2 (f : ℚ → ℚ) (t : T2) : T2 := t.map fun row => row.map f

/-- Lines 112-118: the edgetpu branch slices `x_cat[:, :reg_max*4]` and
`x_cat[:, reg_max*4:]`; the default branch is
`.split((self.reg_max * 4, self.nc), 1)`. -/
def splitBoxCls (d : DetectM) (xs : List Feat) : T2 × T2 :=
  let xcat := catScales (xs.map Feat.data)
  if d.exportMode && d.formatEdgetpu then
    (xcat.take (d.reg_max * 4), xcat.drop (d.reg_max * 4))
  else
    (xcat.take (d.reg_max * 4), (xcat.drop (d.reg_max * 4)).take d.nc)

/-- `DetectReplacer.forward`'s result: the per-scale maps in training mode,
else the intermediate output bundle `(y_bb, y_cls)`. -/
inductive DetectOut where
  | train (xs : List Feat) : DetectOut
  | infer (bb cls : T2) : DetectOut

/-- `DetectReplacer.forward` (lines 105-122): head convolutions, then - in
inference mode - split into box/class parts and return
`(self.dfl(box), cls.sigmoid())`, stopping short of anchor decoding. -/
def DetectReplacer.forward (d : DetectM) (x : List Feat) : DetectOut :=
  let xs := headLoop d 0 x
  if d.training then .train xs
  else
    let bc := splitBoxCls d xs
    .infer (d.dfl bc.1) (sigmoidT2 d.sigmoidFn bc.2)

/-- The intermediate output bundle of a non-training forward. -/
def bundleOf : DetectOut → T2 × T2
  | .train _ => ([], [])
  | .infer bb cls => (bb, cls)

/-- Modelled from the spec (§3 "Anchor/Stride Grid", §8 reconstruction
scenario): the third-party `make_anchors(feats, strides, 0.5)` - for each
scale of shape `(h, w)` the anchor points `(x + offset, y + offset)` in
row-major order and the per-point stride. -/
def anchorsScale (h w : Nat) (off : ℚ) : List (ℚ × ℚ) :=
  (List.range h).flatMap fun yi => (List.range w).map fun xi => ((xi : ℚ) + off, (yi : ℚ) + off)

/-- `make_anchors`: anchor points and stride tensor over all scales. -/
def makeAnchors (shapes : List (Nat × Nat)) (strides : List ℚ) (off : ℚ) :
    List (ℚ × ℚ) × List ℚ :=
  let z := shapes.zip strides
  (z.flatMap fun p => anchorsScale p.1.1 p.1.2 off,
   z.flatMap fun p => List.replicate (p.1.1 * p.1.2) p.2)

/-- Modelled from the spec (§4.3 step 2: "center-offset → xywh"): the
third-party `dist2bbox(distance, anchor_points, xywh, dim=1)`:
`lt, rb = distance.chunk(2, 1)`; `x1y1 = anchor - lt`; `x2y2 = anchor + rb`;
xywh mode returns `cat(((x1y1 + x2y2) / 2, x2y2 - x1y1), 1)`. -/
def dist2bbox (dist : T2) (anch : List (ℚ × ℚ)) (xywh : Bool) : T2 :=
  let l := dist.getD 0 []
  let t := dist.getD 1 []
  let r := dist.getD 2 []
  let b := dist.getD 3 []
  let ax := anch.map Prod.fst
  let ay := anch.map Prod.snd
  let x1 := List.zipWith (· - ·) ax l
  let y1 := List.zipWith (· - ·) ay t
  let x2 := List.zipWith (· + ·) ax r
  let y2 := List.zipWith (· + ·) ay b
  if xywh then
    [List.zipWith (fun u v => (u + v)/2) x1 x2,
     List.zipWith (fun u v => (u + v)/2) y1 y2,
     List.zipWith (· - ·) x2 x1,
     List.zipWith (· - ·) y2 y1]
  else
    [x1, y1, x2, y2]

/-- `dbox * strides`: broadcast the per-position stride over channels. -/
def scaleRows (t : T2) (s : List ℚ) : T2 := t.map fun row => List.zipWith (· * ·) row s

/-- The spatial shape of a feature map. -/
def featShape (f : Feat) : Nat × Nat := (f.h, f.w)

/-- Modelled from the spec (§4.3, §8): the original third-party
`Detect.forward` finalization the variant stops short of - the same head
convolutions and box/class split, then `dbox = dist2bbox(self.dfl(box),
self.anchors.unsqueeze(0), xywh=True, dim=1) * self.strides` with anchors
and strides derived by `make_anchors` from the *actual feature maps*, and
the finalized merged tensor `torch.cat((dbox, cls.sigmoid()), 1)`. -/
def detectForwardOriginal (d : DetectM) (x : List Feat) : T2 :=
  scaleRows
    (dist2bbox (d.dfl (splitBoxCls d (headLoop d 0 x)).1)
      (makeAnchors ((headLoop d 0 x).map featShape) d.stride ((1 : ℚ)/2)).1 true)
    (makeAnchors ((headLoop d 0 x).map featShape) d.stride ((1 : ℚ)/2)).2
  ++ sigmoidT2 d.sigmoidFn (splitBoxCls d (headLoop d 0 x)).2

/-- `grid = (self.args.imgsz / stride).numpy().astype(int)`. -/
def gridOf (imgsz s : ℚ) : Nat := (pyInt (imgsz / s)).toNat

/-- The shapes of the three square dummy maps `x_dummy` built on lines
232-233: `(grid[0], grid[0]), (grid[1], grid[1]), (grid[2], grid[2])`. -/
def dummyShapesOf (stride : List ℚ) (imgsz : ℚ) : List (Nat × Nat) :=
  let grid := stride.map fun s => gridOf imgsz s
  [(grid.getD 0 0, grid.getD 0 0), (grid.getD 1 0, grid.getD 1 0),
   (grid.getD 2 0, grid.getD 2 0)]

/-- The "post-processing additional part" of
`DetectionValidatorReplacer.postprocess` (lines 229-239): recompute anchors
and strides from the static descriptor (per-scale strides and the
configured image size) via dummy maps, decode
`dbox = dist2bbox(preds[0], a.unsqueeze(0), xywh=True, dim=1) * s`, and
recombine `torch.cat((dbox, preds[1]), 1)` (device moves are value
identities). -/
def DetectionValidatorReplacer.reconstruct (stride : List ℚ) (imgsz : ℚ)
    (preds : T2 × T2) : T2 :=
  scaleRows
    (dist2bbox preds.1
      (makeAnchors (dummyShapesOf stride imgsz) stride ((1 : ℚ)/2)).1 true)
    (makeAnchors (dummyShapesOf stride imgsz) stride ((1 : ℚ)/2)).2
  ++ preds.2

/-- A concrete Detect instance for the witness: three scales with strides
`[1, 2, 4]`. -/
def dWitness : DetectM :=
  { nl := 3, nc := 1, reg_max := 1, stride := [1, 2, 4],
    cv2 := fun _ _ => [], cv3 := fun _ _ => [], dfl := id, sigmoidFn := id,
    training := false, exportMode := false, formatEdgetpu := false }

/-- Witness input: square per-scale maps matching `imgsz = 4` over strides
`[1, 2, 4]`. -/
def xWitness : List Feat := [⟨4, 4, []⟩, ⟨2, 2, []⟩, ⟨1, 1, []⟩]

/-!
## Segment head and its reconstruction

`SegmentReplacer.forward` (lines 149-162) and the added part of
`SegmentationValidatorReplacer.postprocess` (lines 252-272).  The original
third-party `Segment.forward`, in the non-export mode the validation
pipeline runs, returns `(torch.cat([x[0], mc], 1), (x[1], mc, p))` where
`x = Detect.forward(x) = (y, feature-map list)` - its second tuple carries
the raw per-scale feature maps, while the replacer's reconstruction
substitutes the sigmoided class tensor `y_cls` in that slot.
-/

/-- One slot of a Segment prediction tuple: a single tensor, or the list of
per-scale feature maps that the original non-export `Detect.forward`
returns alongside the merged tensor. -/
inductive SVal where
  | t (v : T2) : SVal
  | feats (xs : List Feat) : SVal

/-- Discriminates the two `SVal` shapes. -/
def SVal.isFeats : SVal → Bool
  | .t _ => false
  | .feats _ => true

/-- The `Segment`/`SegmentReplacer` state: the inherited Detect state plus
the mask head (`nm` coefficients, `proto`, per-scale `cv4` stacks). -/
structure SegmentM where
  detect : DetectM
  nm : Nat
  proto : Feat → T2
  cv4 : Nat → Feat → T2

/-- Stand-in for an out-of-range `x[i]` (never reached: the loop range is
the scale count of well-shaped inputs). -/
def defaultFeat : Feat := ⟨0, 0, []⟩

/-- `mc = torch.cat([self.cv4[i](x[i]).view(bs, self.nm, -1)
for i in range(self.nl)], 2)`, computed from the unmutated input maps. -/
def mcOf (s : SegmentM) (x : List Feat) : T2 :=
  catScales ((List.range s.detect.nl).map fun i => s.cv4 i (x.getD i defaultFeat))

/-- `SegmentReplacer.forward`'s result: the four tensors
`y_bb, y_cls, mc, p` (the training return nests them `((y_bb, y_cls), mc,
p)`; the nesting carries the same four tensors). -/
inductive SegOut where
  | train (bb cls mc p : T2) : SegOut
  | infer (bb cls mc p : T2) : SegOut

/-- `SegmentReplacer.forward` (lines 153-162): `p = self.proto(x[0])`, the
mask coefficients from the unmutated `x`, then
`y_bb, y_cls = self.detect(self, x)` (the `DetectReplacer` forward), and
the bundle `y_bb, y_cls, mc, p`. -/
def SegmentReplacer.forward (s : SegmentM) (x : List Feat) : SegOut :=
  let p := s.proto (x.getD 0 defaultFeat)
  let mc := mcOf s x
  let dout := DetectReplacer.forward s.detect x
  if s.detect.training then .train (bundleOf dout).1 (bundleOf dout).2 mc p
  else .infer (bundleOf dout).1 (bundleOf dout).2 mc p

/-- The four-tensor bundle of a Segment forward. -/
def segBundleOf : SegOut → T2 × T2 × T2 × T2
  | .train bb cls mc p => (bb, cls, mc, p)
  | .infer bb cls mc p => (bb, cls, mc, p)

/-- Modelled from the spec (§4.3, §8): the original third-party
`Segment.forward` in the non-export mode the validation pipeline runs:
`p = proto(x[0])`; `mc` as above; `x = Detect.forward(x) = (y, feats)`;
returns `(torch.cat([x[0], mc], 1), (x[1], mc, p))`. -/
def segmentForwardOriginal (s : SegmentM) (x : List Feat) : T2 × (SVal × T2 × T2) :=
  (detectForwardOriginal s.detect x ++ mcOf s x,
   (.feats (headLoop s.detect 0 x), mcOf s x, s.proto (x.getD 0 defaultFeat)))

/-- The "post-processing additional part" of
`SegmentationValidatorReplacer.postprocess` (lines 253-267): anchors and
strides from the dummy maps, `dbox = dist2bbox(y_bb, a.unsqueeze(0),
xywh=True, dim=1) * s`, `y = torch.cat((dbox, y_cls), 1)`, and
`preds = (torch.cat([y, masks_coeffs], 1), (y_cls, masks_coeffs, proto))`. -/
def SegmentationValidatorReplacer.reconstruct (stride : List ℚ) (imgsz : ℚ)
    (preds : T2 × T2 × T2 × T2) : T2 × (SVal × T2 × T2) :=
  ((scaleRows
      (dist2bbox preds.1
        (makeAnchors (dummyShapesOf stride imgsz) stride ((1 : ℚ)/2)).1 true)
      (makeAnchors (dummyShapesOf stride imgsz) stride ((1 : ℚ)/2)).2
    ++ preds.2.1) ++ preds.2.2.1,
   (.t preds.2.1, preds.2.2.1, preds.2.2.2))

/-- A concrete Segment instance over `dWitness`. -/
def sWitness : SegmentM :=
  { detect := dWitness, nm := 1, proto := fun _ => [], cv4 := fun _ _ => [] }


/-!
## Metadata preservation across the engine
-/

/-- The three graph-metadata attributes agree (`f`, `i`, `type`). -/
def sameMeta (a b : PNode) : Prop :=
  b.f = a.f ∧ b.i = a.i ∧ b.typeName = a.typeName

/-- How a grandchild relates to its post-replacement counterpart: a matched
one keeps all three metadata attributes (only its type and internals may
change); an unmatched one is the very same node. -/
def gcRel (old : MType) (a b : PNode) : Prop :=
  if pyIsInstance a.ty old then sameMeta a b else b = a

/-- How a depth-1 child relates to its post-replacement counterpart: the same
object with the same metadata; only the grandchildren named in it may have
been replaced, each respecting `gcRel`. -/
def childRel (old : MType) (a b : PNode) : Prop :=
  b.oid = a.oid ∧ b.ty = a.ty ∧ sameMeta a b ∧
    List.Forall₂ (fun (p q : String × PNode) => q.1 = p.1 ∧ gcRel old p.2 q.2)
      a.children b.children

/-- The whole metadata-preservation contract of `replace_2d_deg_module`:
root and depth-1 children keep identity and metadata, names are unchanged,
and every grandchild respects `gcRel`. -/
def MetaPreserved (old : MType) (a b : PNode) : Prop :=
  b.oid = a.oid ∧ b.ty = a.ty ∧ sameMeta a b ∧
    List.Forall₂ (fun (p q : String × PNode) => q.1 = p.1 ∧ childRel old p.2 q.2)
      a.children b.children

/-!
## Navigation helpers and concrete sample models
-/

/-- Total submodule lookup (used only where the submodule exists). -/
def subAt (n : PNode) (nm : String) : PNode :=
  match n.children.find? (fun p => p.1 = nm) with
  | some p => p.2
  | none => leafNode 0 .otherT

/-- Total first-child lookup (used only where a child exists). -/
def firstChild (n : PNode) : PNode :=
  match n.children with
  | p :: _ => p.2
  | [] => leafNode 0 .otherT

/-- The architecture signature of a C2f block: channel counts of the two
`Conv` blocks, the number of bottlenecks, the residual-add flag, and the two
bottleneck conv group counts.  Two blocks with the same signature accept the
same input shapes and produce the same output shapes. -/
def c2fSig (n : PNode) : (Nat × Nat) × (Nat × Nat) × Nat × Bool × Nat × Nat :=
  let cv1c := firstChild (subAt n "cv1")
  let cv2c := firstChild (subAt n "cv2")
  let b0 := firstChild (subAt n "m")
  ((cv1c.inChannels, cv1c.outChannels), (cv2c.inChannels, cv2c.outChannels),
   (subAt n "m").children.length, b0.add,
   (firstChild (subAt b0 "cv1")).groups, (firstChild (subAt b0 "cv2")).groups)

/-- The channel dimension of `C2f.forward`'s output `cv2(cat(...))`: the
out-channels of `cv2`'s convolution. -/
def c2fOutChannels (n : PNode) : Nat := (firstChild (subAt n "cv2")).outChannels

/-- The parameter stand-in of the block's `cv1` convolution. -/
def c2fCv1ConvW (n : PNode) : ℚ := (firstChild (subAt n "cv1")).w

/-- `build(extract_config(n))` - the composed round trip of
`C2fModuleReplacer` (total: returns `n` itself if extraction raised, which
never happens on the well-formed nodes below). -/
def c2fRebuild (n : PNode) (ctr : Nat) : PNode :=
  match C2fModuleReplacer.get_config n with
  | .ok cfg => C2fModuleReplacer.get_new_module cfg ctr
  | .error _ => n

/-- The oid of the first grandchild (first child of the first child). -/
def gcOid (m : PNode) : Nat := (firstChild (firstChild m)).oid

/-- The oid of the second grandchild. -/
def gcOid2 (m : PNode) : Nat :=
  match (firstChild m).children with
  | _ :: p :: _ => p.2.oid
  | _ => 0

/-- A trained C2f block with config `(4, 4, 1, True, 1, 0.5)`, learned
parameter stand-in `7`, and nontrivial graph metadata. -/
def c2fSample : PNode :=
  (((mkC2f ⟨4, 4, 1, true, 1, (1 : ℚ)/2⟩ 7 3).setF (.idxs [-1, 6])).setI 9).setTn
    "ultralytics.nn.modules.C2f"

/-- A two-level toy model holding `c2fSample` as a depth-2 grandchild. -/
def rootModel : PNode :=
  .mk 0 .detectionModel (.int (-1)) (-1) ""
    [("model", .mk 1 .otherT (.int (-1)) (-1) "" [("2", c2fSample)]
        0 0 1 false 0 "" 0)]
    0 0 1 false 0 "yolov8n.yaml" 0

/-- The model after one `C2fModuleReplacer.replace` pass (fresh ids from 100). -/
def rep1 : PNode := (C2fModuleReplacer.replace rootModel 100).1

/-- The model after a second pass over `rep1` (fresh ids from 200). -/
def rep2 : PNode := (C2fModuleReplacer.replace rep1 200).1

/-- A C2f node whose internal structure lacks the expected nested-children
pattern (no submodules at all), typed `C2f` so the engine matches it. -/
def malformedC2f (oid : Nat) (tn : String) : PNode :=
  .mk oid .c2f (.int (-1)) (-1) tn [] 0 0 1 false 0 "" 0

/-- A model with a well-formed C2f grandchild first and a malformed one
second: extraction fails on the second match, after the first was replaced. -/
def rootMalformedLate : PNode :=
  .mk 0 .detectionModel (.int (-1)) (-1) ""
    [("model", .mk 1 .otherT (.int (-1)) (-1) ""
        [("0", mkC2f ⟨4, 4, 1, true, 1, (1 : ℚ)/2⟩ 9 10),
         ("1", malformedC2f 40 "C2f")]
        0 0 1 false 0 "" 0)]
    0 0 1 false 0 "" 0

/-- A model whose only malformed C2f match sits at a different position with
a different oid and type name than the one in `rootMalformedLate`. -/
def rootMalformedOther : PNode :=
  .mk 0 .detectionModel (.int (-1)) (-1) ""
    [("model", .mk 1 .otherT (.int (-1)) (-1) ""
        [("0", malformedC2f 77 "SomeOtherC2fSubclass")]
        0 0 1 false 0 "" 0)]
    0 0 1 false 0 "" 0

/-- A C2f node whose `cv1` exists but has an empty children list:
`next(c.cv1.children())` raises a bare `StopIteration`. -/
def malformedC2fStop (oid : Nat) : PNode :=
  .mk oid .c2f (.int (-1)) (-1) ""
    [("cv1", .mk oid .convT (.int (-1)) (-1) "" [] 0 0 1 false 0 "" 0)]
    0 0 1 false 0 "" 0

/-- A model whose only match is `malformedC2fStop`. -/
def rootMalformedStop : PNode :=
  .mk 0 .detectionModel (.int (-1)) (-1) ""
    [("model", .mk 1 .otherT (.int (-1)) (-1) "" [("0", malformedC2fStop 55)]
        0 0 1 false 0 "" 0)]
    0 0 1 false 0 "" 0

/-- A model with children but no grandchild matching `C2f`. -/
def noMatchModel : PNode :=
  .mk 0 .detectionModel (.int (-1)) (-1) ""
    [("model", .mk 1 .otherT (.int (-1)) (-1) "" [("0", leafNode 2 .convT)]
        0 0 1 false 0 "" 0)]
    0 0 1 false 0 "" 0

/-- A loaded DetectionModel object (oid 0) for the DetectionModel replacer. -/
def dmSample : PNode :=
  .mk 0 .detectionModel (.int (-1)) (-1) "DetectionModel"
    [("model", .mk 1 .otherT (.int (-1)) (-1) "" [] 0 0 1 false 0 "" 0)]
    0 0 1 false 0 "yolov8n.yaml" 3

/-- The explicit built structure of a standard C2f block: expansion
`e = 1/2`, hidden width `k` (so `c2 = 2 * k`), `g = 1`, `m + 1`
bottlenecks, parameter stand-in `w0`. -/
def stdC2fStruct (ty : MType) (c1 k m : Nat) (sc : Bool) (w0 : ℚ) (o : Nat) : PNode :=
  .mk o ty (.int (-1)) (-1) ""
    [("cv1", convNode o c1 (2 * k) 1 w0),
     ("cv2", convNode o ((2 + (m + 1)) * k) (2 * k) 1 w0),
     ("m", PNode.mk o .moduleListT (.int (-1)) (-1) ""
        (List.replicate (m + 1) ("0", bottleneckNode o k k sc 1 w0))
        0 0 1 false 0 "" 0)]
    0 0 1 false k "" 0

theorem sameMeta_refl (a : PNode) : sameMeta a a := ⟨rfl, rfl, rfl⟩

theorem gcRel_refl (old : MType) (a : PNode) : gcRel old a a := by
  unfold gcRel
  split
  · exact sameMeta_refl a
  · rfl

theorem childRel_refl (old : MType) (a : PNode) : childRel old a a := by
  refine ⟨rfl, rfl, sameMeta_refl a, ?_⟩
  exact List.forall₂_same.mpr fun p _ => ⟨rfl, gcRel_refl old p.2⟩

theorem setF_f (x : PNode) (v : Fv) : (x.setF v).f = v := by cases x; rfl

theorem setters_meta (x : PNode) (fv : Fv) (iv : Int) (tv : String) :
    (((x.setF fv).setI iv).setTn tv).f = fv ∧
    (((x.setF fv).setI iv).setTn tv).i = iv ∧
    (((x.setF fv).setI iv).setTn tv).typeName = tv := by
  cases x
  exact ⟨rfl, rfl, rfl⟩

theorem withChildren_oid (x : PNode) (ch : List (String × PNode)) :
    (x.withChildren ch).oid = x.oid := by cases x; rfl

theorem withChildren_ty (x : PNode) (ch : List (String × PNode)) :
    (x.withChildren ch).ty = x.ty := by cases x; rfl

theorem withChildren_meta (x : PNode) (ch : List (String × PNode)) :
    sameMeta x (x.withChildren ch) := by
  cases x
  exact ⟨rfl, rfl, rfl⟩

theorem withChildren_children (x : PNode) (ch : List (String × PNode)) :
    (x.withChildren ch).children = ch := by cases x; rfl

theorem withChildren_self (x : PNode) : x.withChildren x.children = x := by
  cases x; rfl

/-- The inner loop relates every processed grandchild pair by `gcRel`
(also when an exception cut the loop short: the tail is then untouched). -/
theorem goGrandchildren_rel {Cfg : Type} (old : MType)
    (newModule : Cfg → Nat → PNode) (getConfig : PNode → Except PyErr Cfg) :
    ∀ (gcs : List (String × PNode)) (ctr : Nat),
      List.Forall₂ (fun (p q : String × PNode) => q.1 = p.1 ∧ gcRel old p.2 q.2)
        gcs (goGrandchildren old newModule getConfig gcs ctr).1 := by
  intro gcs
  induction gcs with
  | nil => intro ctr; exact List.Forall₂.nil
  | cons hd tl ih =>
    intro ctr
    obtain ⟨name, c⟩ := hd
    by_cases hm : pyIsInstance c.ty old
    · simp only [goGrandchildren, hm, if_true]
      cases hcfg : getConfig c with
      | error e =>
        refine List.Forall₂.cons ⟨rfl, ?_⟩
          (List.forall₂_same.mpr fun p _ => ⟨rfl, gcRel_refl old p.2⟩)
        unfold gcRel
        rw [if_pos hm]
        exact sameMeta_refl c
      | ok cfg =>
        refine List.Forall₂.cons ⟨rfl, ?_⟩ (ih (ctr + 1))
        unfold gcRel
        rw [if_pos hm]
        obtain ⟨h1, h2, h3⟩ := setters_meta (newModule cfg ctr) c.f c.i c.typeName
        exact ⟨h1, h2, h3⟩
    · simp only [goGrandchildren, hm, if_false]
      exact List.Forall₂.cons ⟨rfl, gcRel_refl old c⟩ (ih ctr)

/-- The outer loop relates every child pair by `childRel`. -/
theorem goChildren_rel {Cfg : Type} (old : MType)
    (newModule : Cfg → Nat → PNode) (getConfig : PNode → Except PyErr Cfg) :
    ∀ (chs : List (String × PNode)) (ctr : Nat),
      List.Forall₂ (fun (p q : String × PNode) => q.1 = p.1 ∧ childRel old p.2 q.2)
        chs (goChildren old newModule getConfig chs ctr).1 := by
  intro chs
  induction chs with
  | nil => intro ctr; exact List.Forall₂.nil
  | cons hd tl ih =>
    intro ctr
    obtain ⟨n, m⟩ := hd
    have hrel : childRel old m
        (m.withChildren (goGrandchildren old newModule getConfig m.children ctr).1) := by
      refine ⟨withChildren_oid _ _, withChildren_ty _ _, withChildren_meta _ _, ?_⟩
      rw [withChildren_children]
      exact goGrandchildren_rel old newModule getConfig m.children ctr
    simp only [goChildren]
    cases herr : (goGrandchildren old newModule getConfig m.children ctr).2.2 with
    | some e =>
      exact List.Forall₂.cons ⟨rfl, hrel⟩
        (List.forall₂_same.mpr fun p _ => ⟨rfl, childRel_refl old p.2⟩)
    | none =>
      exact List.Forall₂.cons ⟨rfl, hrel⟩ (ih _)

/-- `replace_2d_deg_module` preserves all graph metadata: shared by the
metadata-preservation and second-pass results. -/
theorem replace_2d_deg_module_meta {Cfg : Type} (old : MType)
    (newModule : Cfg → Nat → PNode) (getConfig : PNode → Except PyErr Cfg)
    (model : PNode) (ctr : Nat) :
    MetaPreserved old model
      (replace_2d_deg_module old newModule getConfig model ctr).1 := by
  unfold replace_2d_deg_module
  refine ⟨withChildren_oid _ _, withChildren_ty _ _, withChildren_meta _ _, ?_⟩
  rw [withChildren_children]
  exact goChildren_rel old newModule getConfig model.children ctr

/-- With no matching grandchild the inner loop touches nothing. -/
theorem goGrandchildren_nomatch {Cfg : Type} (old : MType)
    (newModule : Cfg → Nat → PNode) (getConfig : PNode → Except PyErr Cfg) :
    ∀ (gcs : List (String × PNode)) (ctr : Nat),
      (∀ p ∈ gcs, pyIsInstance (p.2 : PNode).ty old = false) →
      goGrandchildren old newModule getConfig gcs ctr = (gcs, ctr, none) := by
  intro gcs
  induction gcs with
  | nil => intro ctr _; rfl
  | cons hd tl ih =>
    intro ctr h
    obtain ⟨name, c⟩ := hd
    have hc : pyIsInstance c.ty old = false := h (name, c) (List.mem_cons_self _ _)
    simp only [goGrandchildren, hc, Bool.false_eq_true, if_false]
    rw [ih ctr fun p hp => h p (List.mem_cons_of_mem _ hp)]

/-- With no matching grandchild anywhere the outer loop touches nothing. -/
theorem goChildren_nomatch {Cfg : Type} (old : MType)
    (newModule : Cfg → Nat → PNode) (getConfig : PNode → Except PyErr Cfg) :
    ∀ (chs : List (String × PNode)) (ctr : Nat),
      (∀ p ∈ chs, ∀ q ∈ (p.2 : PNode).children, pyIsInstance (q.2 : PNode).ty old = false) →
      goChildren old newModule getConfig chs ctr = (chs, ctr, none) := by
  intro chs
  induction chs with
  | nil => intro ctr _; rfl
  | cons hd tl ih =>
    intro ctr h
    obtain ⟨n, m⟩ := hd
    have hg := goGrandchildren_nomatch old newModule getConfig m.children ctr
      (h (n, m) (List.mem_cons_self _ _))
    simp only [goChildren, hg, withChildren_self]
    rw [ih ctr fun p hp => h p (List.mem_cons_of_mem _ hp)]

/-- C2: for every model and every old-type target, `replace_2d_deg_module`
preserves the graph metadata `i` (node index), `f` (source indices) and
`type` (type name) of every node: on each replaced depth-2 grandchild the
three attributes are copied verbatim from the displaced node onto its
replacement, and every non-matching node is left entirely unchanged; only
node type and internal structure change. -/
theorem replace_preserves_graph_metadata {Cfg : Type} (old : MType)
    (newModule : Cfg → Nat → PNode) (getConfig : PNode → Except PyErr Cfg)
    (model : PNode) (ctr : Nat) :
    MetaPreserved old model
      (replace_2d_deg_module old newModule getConfig model ctr).1 :=
  replace_2d_deg_module_meta old newModule getConfig model ctr

/-- C3 counterexample: re-running `C2fModuleReplacer.replace` on the
already-converted `rep1` is not a no-op - the already-replaced grandchild
(a `C2fReplacer`, which is still an instance of `C2f`) is replaced again by
a freshly constructed module, so the resulting tree differs. -/
theorem second_replace_is_not_noop : rep2 ≠ rep1 := by
  intro h
  have h2 := congrArg gcOid h
  have e2 : gcOid rep2 = 200 := by with_unfolding_all decide
  have e1 : gcOid rep1 = 100 := by with_unfolding_all decide
  rw [e2, e1] at h2
  exact absurd h2 (by decide)

/-- C3 amended: re-running replacement on an already-converted model is not
a no-op: `C2fReplacer` is a subclass of `C2f`, so every already-replaced
grandchild still `isinstance`-matches the old type and is rebuilt as a
freshly allocated module; the second pass preserves all structure and graph
metadata but replaces the grandchild object (here: fresh oid 200 replacing
fresh oid 100). -/
theorem second_replace_rebuilds_matches :
    (∀ (model : PNode) (ctr1 ctr2 : Nat),
      MetaPreserved .c2f (C2fModuleReplacer.replace model ctr1).1
        (C2fModuleReplacer.replace (C2fModuleReplacer.replace model ctr1).1 ctr2).1) ∧
    pyIsInstance .c2fReplacerT .c2f = true ∧
    hasMatch .c2f rep1 = true ∧
    gcOid rep1 = 100 ∧ gcOid rep2 = 200 := by
  refine ⟨fun model ctr1 ctr2 => replace_2d_deg_module_meta _ _ _ _ _,
    by decide, ?_, ?_, ?_⟩
  · with_unfolding_all decide
  · with_unfolding_all decide
  · with_unfolding_all decide

/-- C7 counterexample: `DetectionModelModuleReplacer.replace` does not
return the model object it was given - it builds and returns a freshly
allocated `DetectionModelReplacer` (and does so even though no submodule of
the input matched anything). -/
theorem detection_model_replace_returns_new_object :
    (DetectionModelModuleReplacer.replace dmSample 1).1 ≠ dmSample := by
  intro h
  have h2 := congrArg PNode.oid h
  rw [show (DetectionModelModuleReplacer.replace dmSample 1).1.oid = 1 from rfl,
      show dmSample.oid = 0 from rfl] at h2
  exact absurd h2 (by decide)

/-- C7 amended: the two-level engine `replace_2d_deg_module` mutates the
model in place and returns the very same object (same root identity), and
when no grandchild matches the old type it returns the input entirely
unchanged; `DetectionModelModuleReplacer.replace`, by contrast, always
returns a freshly constructed model object. -/
theorem replace_in_place_semantics {Cfg : Type} (old : MType)
    (newModule : Cfg → Nat → PNode) (getConfig : PNode → Except PyErr Cfg)
    (model : PNode) (ctr : Nat) (dmodel : PNode) (ctr2 : Nat) :
    (replace_2d_deg_module old newModule getConfig model ctr).1.oid = model.oid ∧
    (hasMatch old model = false →
      (replace_2d_deg_module old newModule getConfig model ctr).1 = model) ∧
    (DetectionModelModuleReplacer.replace dmodel ctr2).1.oid = ctr2 := by
  refine ⟨withChildren_oid _ _, ?_, rfl⟩
  intro hnm
  unfold hasMatch at hnm
  have hnm' : ∀ p ∈ model.children, ∀ q ∈ (p.2 : PNode).children,
      pyIsInstance (q.2 : PNode).ty old = false := by
    intro p hp q hq
    have h1 := List.any_eq_false.mp hnm p hp
    have h1' : ((p.2 : PNode).children.any fun q =>
        pyIsInstance (q.2 : PNode).ty old) = false := by simpa using h1
    have h2 := List.any_eq_false.mp h1' q hq
    simpa using h2
  unfold replace_2d_deg_module
  rw [goChildren_nomatch old newModule getConfig model.children ctr hnm']
  exact withChildren_self model

/-- Witness for `replace_in_place_semantics`: on a concrete model with no
C2f grandchild, `C2fModuleReplacer`'s engine call returns it unchanged. -/
theorem replace_in_place_semantics_witness :
    hasMatch .c2f noMatchModel = false ∧
    (replace_2d_deg_module .c2f C2fModuleReplacer.get_new_module
      C2fModuleReplacer.get_config noMatchModel 5).1 = noMatchModel :=
  ⟨by decide, (replace_in_place_semantics .c2f C2fModuleReplacer.get_new_module
      C2fModuleReplacer.get_config noMatchModel 5 dmSample 9).2.1 (by decide)⟩

theorem pyInt_natCast (a : Nat) : pyInt ((a : ℚ)) = (a : Int) := by
  unfold pyInt
  rw [if_pos (by positivity)]
  exact Int.floor_natCast a

theorem pyInt_two_mul_half (k : Nat) :
    (pyInt (((2 * k : ℕ) : ℚ) * ((1 : ℚ)/2))).toNat = k := by
  have h : (((2 * k : ℕ) : ℚ) * ((1 : ℚ)/2)) = ((k : ℕ) : ℚ) := by
    push_cast
    ring
  rw [h, pyInt_natCast]
  simp

/-- The constructor of a standard block builds `stdC2fStruct`. -/
theorem mkC2fAs_std (ty : MType) (c1 k m : Nat) (sc : Bool) (w0 : ℚ) (o : Nat) :
    mkC2fAs ty ⟨c1, 2 * k, ((m + 1 : ℕ) : Int), sc, 1, (1 : ℚ)/2⟩ w0 o =
    stdC2fStruct ty c1 k m sc w0 o := by
  unfold mkC2fAs stdC2fStruct
  dsimp only
  rw [pyInt_two_mul_half]
  have h2 : ((2 + ((m + 1 : ℕ) : Int)) * ((k : ℕ) : Int)).toNat = (2 + (m + 1)) * k := by
    rw [show (2 + ((m + 1 : ℕ) : Int)) * ((k : ℕ) : Int)
        = (((2 + (m + 1)) * k : ℕ) : Int) from by push_cast; ring, Int.toNat_natCast]
  rw [h2]
  simp

theorem c2fSig_std (ty : MType) (c1 k m : Nat) (sc : Bool) (w0 : ℚ) (o : Nat) :
    c2fSig (stdC2fStruct ty c1 k m sc w0 o)
      = ((c1, 2 * k), ((2 + (m + 1)) * k, 2 * k), m + 1, sc, 1, 1) := by
  have h : c2fSig (stdC2fStruct ty c1 k m sc w0 o)
      = ((c1, 2 * k), ((2 + (m + 1)) * k, 2 * k),
         (List.replicate (m + 1) ("0", bottleneckNode o k k sc 1 w0)).length,
         sc && decide (k = k), 1, 1) := rfl
  rw [h, List.length_replicate, show decide (k = k) = true from decide_eq_true rfl,
    Bool.and_true]

theorem c2fOutChannels_std (ty : MType) (c1 k m : Nat) (sc : Bool) (w0 : ℚ) (o : Nat) :
    c2fOutChannels (stdC2fStruct ty c1 k m sc w0 o) = 2 * k := rfl

theorem c2fCv1ConvW_std (ty : MType) (c1 k m : Nat) (sc : Bool) (w0 : ℚ) (o : Nat) :
    c2fCv1ConvW (stdC2fStruct ty c1 k m sc w0 o) = w0 := rfl

/-- Extraction on the standard block recovers the constructor config. -/
theorem get_config_std (c1 k m : Nat) (sc : Bool) (wv : ℚ) (oid : Nat) (hk : 0 < k) :
    C2fModuleReplacer.get_config (stdC2fStruct .c2f c1 k m sc wv oid)
      = .ok ⟨c1, 2 * k, ((m + 1 : ℕ) : Int), sc, 1, (1 : ℚ)/2⟩ := by
  have hred : C2fModuleReplacer.get_config (stdC2fStruct .c2f c1 k m sc wv oid)
      = .ok ⟨c1, 2 * k,
          pyInt (((((2 + (m + 1)) * k : ℕ)) : ℚ) / ((k : ℕ) : ℚ) - 2),
          sc && decide (k = k), 1, ((k : ℕ) : ℚ) / ((2 * k : ℕ) : ℚ)⟩ := rfl
  rw [hred]
  have e_n : ((((2 + (m + 1)) * k : ℕ)) : ℚ) / ((k : ℕ) : ℚ) - 2
      = (((m + 1 : ℕ)) : ℚ) := by
    have hkQ : ((k : ℕ) : ℚ) ≠ 0 := by positivity
    field_simp
  have e_e : ((k : ℕ) : ℚ) / ((2 * k : ℕ) : ℚ) = (1 : ℚ)/2 := by
    rw [div_eq_div_iff (by positivity) (by norm_num)]
    push_cast
    ring
  rw [e_n, pyInt_natCast, e_e]
  simp

/-- C4 counterexample: `build(extract_config(n))` does not adopt the
original node's parameter tensors - on the sample block with learned
parameter stand-in `7`, the rebuilt block's `cv1` convolution carries the
fresh-initialization value `0`, not `7`. -/
theorem rebuild_does_not_adopt_parameters :
    c2fCv1ConvW (c2fRebuild c2fSample 50) ≠ c2fCv1ConvW c2fSample := by
  with_unfolding_all decide

/-- C4 amended: for every original C2f node built with the standard
expansion `e = 1/2` (even hidden width `2 * k`, `k > 0`), at least one
bottleneck and `g = 1`, `extract_config` returns exactly the constructor
config, and `build(extract_config(n))` reproduces the architecture
signature and the output channel count of `n` (hence its output shape);
but its parameter tensors are freshly initialized - they carry the fixed
fresh-initialization value `0`, not the original's learned values `wv`. -/
theorem c2f_rebuild_architecture (c1 k n : Nat) (sc : Bool) (wv : ℚ)
    (oid ctr : Nat) (hk : 0 < k) (hn : 0 < n) :
    C2fModuleReplacer.get_config (mkC2f ⟨c1, 2 * k, (n : Int), sc, 1, (1 : ℚ)/2⟩ wv oid)
      = .ok ⟨c1, 2 * k, (n : Int), sc, 1, (1 : ℚ)/2⟩ ∧
    c2fSig (c2fRebuild (mkC2f ⟨c1, 2 * k, (n : Int), sc, 1, (1 : ℚ)/2⟩ wv oid) ctr)
      = c2fSig (mkC2f ⟨c1, 2 * k, (n : Int), sc, 1, (1 : ℚ)/2⟩ wv oid) ∧
    c2fOutChannels (c2fRebuild (mkC2f ⟨c1, 2 * k, (n : Int), sc, 1, (1 : ℚ)/2⟩ wv oid) ctr)
      = c2fOutChannels (mkC2f ⟨c1, 2 * k, (n : Int), sc, 1, (1 : ℚ)/2⟩ wv oid) ∧
    c2fCv1ConvW (c2fRebuild (mkC2f ⟨c1, 2 * k, (n : Int), sc, 1, (1 : ℚ)/2⟩ wv oid) ctr) = 0 ∧
    c2fCv1ConvW (mkC2f ⟨c1, 2 * k, (n : Int), sc, 1, (1 : ℚ)/2⟩ wv oid) = wv := by
  obtain ⟨m, rfl⟩ : ∃ m, n = m + 1 := ⟨n - 1, by omega⟩
  have hOrig : mkC2f ⟨c1, 2 * k, ((m + 1 : ℕ) : Int), sc, 1, (1 : ℚ)/2⟩ wv oid
      = stdC2fStruct .c2f c1 k m sc wv oid := mkC2fAs_std .c2f c1 k m sc wv oid
  have hCfg : C2fModuleReplacer.get_config
      (mkC2f ⟨c1, 2 * k, ((m + 1 : ℕ) : Int), sc, 1, (1 : ℚ)/2⟩ wv oid)
      = .ok ⟨c1, 2 * k, ((m + 1 : ℕ) : Int), sc, 1, (1 : ℚ)/2⟩ := by
    rw [hOrig]
    exact get_config_std c1 k m sc wv oid hk
  have hRb : c2fRebuild (mkC2f ⟨c1, 2 * k, ((m + 1 : ℕ) : Int), sc, 1, (1 : ℚ)/2⟩ wv oid) ctr
      = stdC2fStruct .c2fReplacerT c1 k m sc 0 ctr := by
    unfold c2fRebuild
    rw [hCfg]
    show mkC2fAs .c2fReplacerT _ 0 ctr = _
    exact mkC2fAs_std .c2fReplacerT c1 k m sc 0 ctr
  refine ⟨hCfg, ?_, ?_, ?_, ?_⟩
  · rw [hRb, hOrig, c2fSig_std, c2fSig_std]
  · rw [hRb, hOrig, c2fOutChannels_std, c2fOutChannels_std]
  · rw [hRb, c2fCv1ConvW_std]
  · rw [hOrig, c2fCv1ConvW_std]

/-- Witness for `c2f_rebuild_architecture` at the §8 scenario config
`(c1 = 64, c2 = 64, n = 1, shortcut = True, g = 1, e = 0.5)`. -/
theorem c2f_rebuild_architecture_witness :
    0 < 32 ∧ 0 < 1 ∧
    (C2fModuleReplacer.get_config (mkC2f ⟨64, 2 * 32, (1 : Int), true, 1, (1 : ℚ)/2⟩ 7 3)
      = .ok ⟨64, 2 * 32, (1 : Int), true, 1, (1 : ℚ)/2⟩ ∧
    c2fSig (c2fRebuild (mkC2f ⟨64, 2 * 32, (1 : Int), true, 1, (1 : ℚ)/2⟩ 7 3) 50)
      = c2fSig (mkC2f ⟨64, 2 * 32, (1 : Int), true, 1, (1 : ℚ)/2⟩ 7 3) ∧
    c2fOutChannels (c2fRebuild (mkC2f ⟨64, 2 * 32, (1 : Int), true, 1, (1 : ℚ)/2⟩ 7 3) 50)
      = c2fOutChannels (mkC2f ⟨64, 2 * 32, (1 : Int), true, 1, (1 : ℚ)/2⟩ 7 3) ∧
    c2fCv1ConvW (c2fRebuild (mkC2f ⟨64, 2 * 32, (1 : Int), true, 1, (1 : ℚ)/2⟩ 7 3) 50) = 0 ∧
    c2fCv1ConvW (mkC2f ⟨64, 2 * 32, (1 : Int), true, 1, (1 : ℚ)/2⟩ 7 3) = 7) :=
  ⟨by decide, by decide,
    c2f_rebuild_architecture 64 32 1 true 7 3 50 (by decide) (by decide)⟩

/-- C5 counterexample: the failure escaping `replace` never identifies the
offending node's position - structurally different malformed C2f nodes at
different tree positions (second grandchild oid 40 in `rootMalformedLate`
vs only grandchild oid 77 in `rootMalformedOther`) raise the identical
error value - and can carry no information at all (a bare `StopIteration`
when a nested children iterator is empty, `rootMalformedStop`); moreover
the aborted call leaves a partially replaced tree: the first grandchild
was already replaced (fresh oid 100 instead of its original oid 10) before
the failure, contradicting "aborts without producing a partially-replaced
tree". -/
theorem extraction_failure_generic_and_partial :
    (C2fModuleReplacer.replace rootMalformedLate 100).2.2 =
      (C2fModuleReplacer.replace rootMalformedOther 500).2.2 ∧
    (C2fModuleReplacer.replace rootMalformedStop 300).2.2 =
      some .stopIteration ∧
    gcOid (C2fModuleReplacer.replace rootMalformedLate 100).1 = 100 ∧
    gcOid rootMalformedLate = 10 := by
  refine ⟨?_, ?_, ?_, ?_⟩
  · with_unfolding_all decide
  · with_unfolding_all decide
  · with_unfolding_all decide
  · with_unfolding_all decide

/-- C5 amended: extraction failure on a malformed matched submodule raises
a generic builtin exception, not a labeled configuration-extraction error:
a missing submodule attribute raises `AttributeError` whose message names
the offending object's class and the attribute (`'C2f' object has no
attribute 'cv1'`) but never the node's position in the tree, and an
exhausted nested children iterator raises a bare `StopIteration` naming
nothing at all; the exception aborts the `replace` call without being
swallowed (no silent skip), but in-place mutation is not rolled back:
matches replaced earlier in the traversal stay replaced (first grandchild
rebuilt with oid 100) while the malformed node and everything after it
stay untouched (second grandchild still oid 40). -/
theorem extraction_failure_behavior :
    (C2fModuleReplacer.replace rootMalformedLate 100).2.2 =
      some (.attributeError "C2f" "cv1") ∧
    (C2fModuleReplacer.replace rootMalformedStop 300).2.2 =
      some .stopIteration ∧
    gcOid (C2fModuleReplacer.replace rootMalformedLate 100).1 = 100 ∧
    gcOid2 (C2fModuleReplacer.replace rootMalformedLate 100).1 = 40 ∧
    gcOid2 rootMalformedLate = 40 := by
  refine ⟨?_, ?_, ?_, ?_, ?_⟩
  · with_unfolding_all decide
  · with_unfolding_all decide
  · with_unfolding_all decide
  · with_unfolding_all decide
  · with_unfolding_all decide

/-- C8 counterexample: an explicit call-time imgsz override does not always
win - passing `imgsz=640` (the global default) in kwargs is indistinguishable
from passing nothing, so a loaded model's stored training imgsz (here 320)
silently wins over the explicit request. -/
theorem val_imgsz_override_equal_default_loses :
    valResolvedImgsz none (some 640) false 320 ≠ 640 ∧
    valResolvedImgsz none (some 640) false 320 = 320 := by
  decide

/-- C8 amended: the imgsz precedence of `YOLOReplacer.val` is: an explicit
call-time kwargs value wins over everything only when it differs from the
global default (640); a kwargs value equal to the default is treated as no
override, and then (for a loaded model object, not a path) the model's
stored training imgsz wins; the stored `self.overrides` imgsz behaves the
same way; the global default survives only for path models with no
effective override. -/
theorem val_imgsz_precedence (so : Option Nat) (v w ma : Nat) :
    (v ≠ defaultImgsz → ∀ p, valResolvedImgsz so (some v) p ma = v) ∧
    valResolvedImgsz so (some defaultImgsz) false ma = ma ∧
    (w ≠ defaultImgsz → valResolvedImgsz (some w) none false ma = w) ∧
    valResolvedImgsz none none false ma = ma ∧
    valResolvedImgsz none none true ma = defaultImgsz := by
  refine ⟨?_, ?_, ?_, ?_, ?_⟩
  · intro hv p
    simp [valResolvedImgsz, getCfgImgsz, mergedImgsz, hv]
  · simp [valResolvedImgsz, getCfgImgsz, mergedImgsz]
  · intro hw
    simp [valResolvedImgsz, getCfgImgsz, mergedImgsz, hw]
  · simp [valResolvedImgsz, getCfgImgsz, mergedImgsz]
  · simp [valResolvedImgsz, getCfgImgsz, mergedImgsz]

/-- Witness for `val_imgsz_precedence`: a non-default explicit override
(320) does win over a stored imgsz of 480. -/
theorem val_imgsz_precedence_witness :
    (320 : Nat) ≠ defaultImgsz ∧
    valResolvedImgsz (some 480) (some 320) false 480 = 320 :=
  ⟨by decide, (val_imgsz_precedence (some 480) 320 96 480).1 (by decide) false⟩

/-- C10: `DetectionModelReplacer.forward` always takes the single-scale
`_forward_once` path and its result is independent of the `augment`,
`profile` and `visualize` flags: two calls differing only in those flags
return the same output. -/
theorem detection_model_forward_flag_independent {τ : Type} (model : DMR τ)
    (x : PyV τ) (a p v a' p' v' : Bool) :
    DetectionModelReplacer.forward model x a p v
      = DetectionModelReplacer.forward model x a' p' v' := rfl

/-- C6 (code bug): the device round trip fails on tuples -
`to_torch_tensor` of a tuple returns a generator expression instead of a
tuple, and `torch_tensor_to_numpy` then raises its unsupported-type
exception; a list with the same content round-trips fine (modulo the
documented float32 dtype downcast), and a bare array round-trips to the
same values as float32. -/
theorem tuple_round_trip_raises :
    tensorRoundTrip (.tup (.cons (.arr .f64 [1]) .nil)) =
      .error (.unsupported "generator") ∧
    tensorRoundTrip (.listv (.cons (.arr .f64 [1]) .nil)) =
      .ok (.listv (.cons (.arr .f32 [1]) .nil)) ∧
    tensorRoundTrip (.arr .f64 [1, 2]) = .ok (.arr .f32 [1, 2]) :=
  ⟨rfl, rfl, rfl⟩

/-- The head loop preserves every scale's spatial shape. -/
theorem headLoop_shapes (d : DetectM) :
    ∀ (idx : Nat) (x : List Feat),
      (headLoop d idx x).map featShape = x.map featShape := by
  intro idx x
  induction x generalizing idx with
  | nil => rfl
  | cons xi rest ih =>
    simp only [headLoop, List.map_cons, ih]
    congr 1
    split
    · rfl
    · rfl

/-- In inference mode the variant's bundle is `(dfl(box), sigmoid(cls))`. -/
theorem detect_bundle (d : DetectM) (x : List Feat) (htr : d.training = false) :
    bundleOf (DetectReplacer.forward d x)
      = (d.dfl (splitBoxCls d (headLoop d 0 x)).1,
         sigmoidT2 d.sigmoidFn (splitBoxCls d (headLoop d 0 x)).2) := by
  unfold DetectReplacer.forward
  rw [htr]
  simp only [Bool.false_eq_true, if_false]
  rfl

/-- The Segment bundle in inference mode. -/
theorem segment_bundle (s : SegmentM) (x : List Feat)
    (htr : s.detect.training = false) :
    segBundleOf (SegmentReplacer.forward s x)
      = (s.detect.dfl (splitBoxCls s.detect (headLoop s.detect 0 x)).1,
         sigmoidT2 s.detect.sigmoidFn (splitBoxCls s.detect (headLoop s.detect 0 x)).2,
         mcOf s x, s.proto (x.getD 0 defaultFeat)) := by
  simp only [SegmentReplacer.forward, segBundleOf, htr, Bool.false_eq_true,
    if_false]
  rw [detect_bundle s.detect x htr]

/-- Detect-head equivalence: for every non-training input whose per-scale
spatial shapes match the square grids the validator derives from the static
descriptor (`imgsz / stride` per scale), applying the post-processing
reconstruction to the intermediate bundle of `DetectReplacer.forward`
yields exactly the original `Detect.forward` finalized output. -/
theorem detect_reconstruct_equiv (d : DetectM) (imgsz : ℚ) (x : List Feat)
    (htr : d.training = false)
    (hsh : x.map featShape = dummyShapesOf d.stride imgsz) :
    DetectionValidatorReplacer.reconstruct d.stride imgsz
      (bundleOf (DetectReplacer.forward d x))
      = detectForwardOriginal d x := by
  rw [detect_bundle d x htr]
  unfold DetectionValidatorReplacer.reconstruct detectForwardOriginal
  rw [show dummyShapesOf d.stride imgsz = (headLoop d 0 x).map featShape from
    ((headLoop_shapes d 0 x).trans hsh).symm]

/-- C1 counterexample: for the Segment head the reconstruction is not the
original's finalized output - on the concrete witness instance the original
non-export `Segment.forward` carries the per-scale feature-map list in the
second tuple (`(x[1], mc, p)`) while `SegmentationValidatorReplacer`'s
reconstruction substitutes the sigmoided class tensor (`(y_cls, mc, p)`),
so the two outputs differ. -/
theorem segment_reconstruct_differs :
    SegmentationValidatorReplacer.reconstruct sWitness.detect.stride 4
      (segBundleOf (SegmentReplacer.forward sWitness xWitness))
      ≠ segmentForwardOriginal sWitness xWitness := by
  intro h
  have h2 := congrArg (fun z => SVal.isFeats z.2.1) h
  have e1 : SVal.isFeats ((SegmentationValidatorReplacer.reconstruct
      sWitness.detect.stride 4
      (segBundleOf (SegmentReplacer.forward sWitness xWitness))).2.1) = false := by
    with_unfolding_all decide
  have e2 : SVal.isFeats ((segmentForwardOriginal sWitness xWitness).2.1) = true := by
    with_unfolding_all decide
  simp only [e1, e2] at h2
  exact absurd h2 (by decide)

/-- C1 amended: per replaced head, under non-training mode and per-scale
shapes matching the validator's square `imgsz / stride` grids: the Detect
reconstruction equals the original finalized output exactly (hence within
any floating-point tolerance); the Segment reconstruction reproduces
exactly the first component - the merged detection+mask-coefficient tensor
the downstream consumer reads - and carries the mask coefficients and
prototype masks through unchanged, but its second tuple holds the
sigmoided class tensor where the original holds the per-scale feature-map
list, so the full Segment outputs are not equal. -/
theorem reconstruct_equiv_per_head (d : DetectM) (s : SegmentM)
    (imgszD imgszS : ℚ) (x xs : List Feat)
    (htr : d.training = false)
    (hsh : x.map featShape = dummyShapesOf d.stride imgszD)
    (hstr : s.detect.training = false)
    (hssh : xs.map featShape = dummyShapesOf s.detect.stride imgszS) :
    DetectionValidatorReplacer.reconstruct d.stride imgszD
      (bundleOf (DetectReplacer.forward d x))
      = detectForwardOriginal d x ∧
    (SegmentationValidatorReplacer.reconstruct s.detect.stride imgszS
        (segBundleOf (SegmentReplacer.forward s xs))).1
      = (segmentForwardOriginal s xs).1 ∧
    (SegmentationValidatorReplacer.reconstruct s.detect.stride imgszS
        (segBundleOf (SegmentReplacer.forward s xs))).2.2
      = (segmentForwardOriginal s xs).2.2 ∧
    (SegmentationValidatorReplacer.reconstruct s.detect.stride imgszS
        (segBundleOf (SegmentReplacer.forward s xs))).2.1
      = .t (sigmoidT2 s.detect.sigmoidFn
          (splitBoxCls s.detect (headLoop s.detect 0 xs)).2) ∧
    (segmentForwardOriginal s xs).2.1 = .feats (headLoop s.detect 0 xs) := by
  refine ⟨detect_reconstruct_equiv d imgszD x htr hsh, ?_, ?_, ?_, rfl⟩
  · rw [segment_bundle s xs hstr]
    simp only [SegmentationValidatorReplacer.reconstruct, segmentForwardOriginal,
      detectForwardOriginal]
    rw [show dummyShapesOf s.detect.stride imgszS
        = (headLoop s.detect 0 xs).map featShape from
      ((headLoop_shapes s.detect 0 xs).trans hssh).symm]
  · rw [segment_bundle s xs hstr]
    simp only [SegmentationValidatorReplacer.reconstruct, segmentForwardOriginal]
  · rw [segment_bundle s xs hstr]
    simp only [SegmentationValidatorReplacer.reconstruct]

/-- Witness for `reconstruct_equiv_per_head`: the concrete three-scale
Detect and Segment instances with `imgsz = 4` and strides `[1, 2, 4]`. -/
theorem reconstruct_equiv_per_head_witness :
    dWitness.training = false ∧
    xWitness.map featShape = dummyShapesOf dWitness.stride 4 ∧
    sWitness.detect.training = false ∧
    xWitness.map featShape = dummyShapesOf sWitness.detect.stride 4 ∧
    (DetectionValidatorReplacer.reconstruct dWitness.stride 4
      (bundleOf (DetectReplacer.forward dWitness xWitness))
      = detectForwardOriginal dWitness xWitness ∧
    (SegmentationValidatorReplacer.reconstruct sWitness.detect.stride 4
        (segBundleOf (SegmentReplacer.forward sWitness xWitness))).1
      = (segmentForwardOriginal sWitness xWitness).1 ∧
    (SegmentationValidatorReplacer.reconstruct sWitness.detect.stride 4
        (segBundleOf (SegmentReplacer.forward sWitness xWitness))).2.2
      = (segmentForwardOriginal sWitness xWitness).2.2 ∧
    (SegmentationValidatorReplacer.reconstruct sWitness.detect.stride 4
        (segBundleOf (SegmentReplacer.forward sWitness xWitness))).2.1
      = .t (sigmoidT2 sWitness.detect.sigmoidFn
          (splitBoxCls sWitness.detect (headLoop sWitness.detect 0 xWitness)).2) ∧
    (segmentForwardOriginal sWitness xWitness).2.1
      = .feats (headLoop sWitness.detect 0 xWitness)) :=
  ⟨rfl, by with_unfolding_all decide, rfl, by with_unfolding_all decide,
    reconstruct_equiv_per_head dWitness sWitness 4 4 xWitness xWitness rfl
      (by with_unfolding_all decide) rfl (by with_unfolding_all decide)⟩

/-- C9: `C2fModuleReplacer.get_config` applied to a feature-aggregation
block constructed with `(c1=64, c2=64, n=1, shortcut=True, g=1, e=0.5)`
returns exactly the tuple `[64, 64, 1, True, 1, 0.5]`. -/
theorem get_config_scenario :
    C2fModuleReplacer.get_config (mkC2f ⟨64, 64, 1, true, 1, (1 : ℚ)/2⟩ 7 3)
      = .ok ⟨64, 64, 1, true, 1, (1 : ℚ)/2⟩ := by
  with_unfolding_all rfl
